import Mathlib

/-!
Verification of `src/tokenaddress.py` (Token Address Finder).

The core of the program is `get_address(base_url, ticker)` and the
processing loop of the "Find Addresses" button handler, which maps
`get_address` over the first column of the uploaded table, appends the
results as a `token address` column, and serializes the table to CSV.

We embed the per-row resolution logic shallowly:
* a ticker cell of the input table is either a Python `str` or a
  non-string value (numeric, NaN) that `str(...)` renders;
* the network is a parameter `server : String → FetchOutcome` mapping a
  request URL to the observable outcome of `requests.get` followed by
  `raise_for_status()` and `.json()`;
* `get_address` returns both the address string and the list of request
  URLs it issued, so that "no network call" claims are statable.
-/

namespace TokenAddress

/-- A value found in the ticker column of the uploaded table, as Python
sees it.  `strV s` is a value for which `isinstance(ticker, str)` holds;
`numV r` is any other (numeric-like) value whose Python string
representation `str(v)` is `r`; `nanV` is the float NaN missing-value
marker used by pandas (whose `str` representation is `"nan"`). -/
inductive TickerValue where
  | strV (s : String)
  | numV (r : String)
  | nanV
  deriving DecidableEq, Repr

/-- The observable outcome of `requests.get(api_url, timeout=10)` followed
by `response.raise_for_status()` and `response.json()`:
* `ok body`: 2xx status and a parseable JSON object body, given as an
  association list of string fields;
* `httpError code`: the response had a 4xx/5xx status, so
  `raise_for_status()` raised `requests.exceptions.HTTPError`;
* `netError`: the GET itself failed at the transport level (connection
  refused, timeout, DNS failure), raising a non-HTTP
  `requests.exceptions.RequestException`;
* `badJSON`: 2xx status but the body is not a parseable JSON object, so
  extracting the field raises an exception that is neither an `HTTPError`
  nor a (non-HTTP) `RequestException`, reaching the final
  `except Exception` handler (the code's comment: "Handle other potential
  errors like JSON parsing"). -/
inductive FetchOutcome where
  | ok (body : List (String × String))
  | httpError (code : Nat)
  | netError
  | badJSON
  deriving DecidableEq, Repr

/-- `pd.isna` applied to a value that is already a Python `str`: it is
`False` for every string (strings are never missing-value markers). -/
def pd_isna (_s : String) : Bool := false

/-- Python's `str.strip()` with no argument: remove leading and trailing
whitespace characters. -/
def pyStrip (s : String) : String :=
  ⟨((s.data.dropWhile Char.isWhitespace).reverse.dropWhile
      Char.isWhitespace).reverse⟩

/-- Lines 23-24 of `get_address`:
`if not isinstance(ticker, str): ticker = str(ticker).strip()`.
A value that is already a `str` is left untouched (no trimming); any
other value is rendered by `str(...)` and stripped.  `str(float("nan"))`
is `"nan"`. -/
def normalizeTicker : TickerValue → String
  | .strV s => s
  | .numV r => pyStrip r
  | .nanV => pyStrip "nan"

/-- The result of one `get_address` call: the returned string together
with the URLs of the GET requests it issued, in order. -/
structure GetResult where
  address : String
  requests : List String
  deriving DecidableEq, Repr

/-- Shallow embedding of `get_address(base_url, ticker)`
(src/tokenaddress.py lines 20-43).  After the normalization of lines
23-24, line 26 tests `if not ticker or pd.isna(ticker)` — at that point
`ticker` is always a `str`, so the `pd.isna` disjunct is the constant
`false` of `pd_isna`.  Otherwise one GET is issued to
`f"{base_url}/{ticker}"` and the outcome is classified by the
`try`/`except` chain of lines 29-43. -/
def get_address (server : String → FetchOutcome) (base_url : String)
    (ticker : TickerValue) : GetResult :=
  let t := normalizeTicker ticker
  if t = "" ∨ pd_isna t then
    { address := "Invalid Ticker", requests := [] }
  else
    let api_url := base_url ++ "/" ++ t
    let addr :=
      match server api_url with
      | .ok body => ((body.lookup "address").getD "Address key not found")
      | .httpError _ => "Not Found"
      | .netError => "API Error"
      | .badJSON => "Processing Error"
    { address := addr, requests := [api_url] }

/-- The processing loop of the "Find Addresses" handler
(src/tokenaddress.py lines 94-105): for each ticker of the first column,
in order, call `get_address` and append the result to `addresses`. -/
def resolveAll (server : String → FetchOutcome) (base_url : String)
    (tickers : List TickerValue) : List String :=
  tickers.map (fun t => (get_address server base_url t).address)

/-- All request URLs issued while processing a ticker sequence, in
order. -/
def allRequests (server : String → FetchOutcome) (base_url : String)
    (tickers : List TickerValue) : List String :=
  (tickers.map (fun t => (get_address server base_url t).requests)).flatten

/-- The column-append of line 109, `df['token address'] = addresses`:
each original row gains the corresponding address as a final cell. -/
def appendAddressColumn (rows : List (List String)) (addrs : List String) :
    List (List String) :=
  List.zipWith (fun r a => r ++ [a]) rows addrs

/-- Join character lists with a separator character between consecutive
elements. -/
def joinWith (c : Char) : List (List Char) → List Char
  | [] => []
  | [l] => l
  | l :: l' :: ls => l ++ c :: joinWith c (l' :: ls)

/-- Prepend a character to the first chunk of a chunk list. -/
def consHead (x : Char) : List (List Char) → List (List Char)
  | [] => [[x]]
  | y :: ys => (x :: y) :: ys

/-- Split a character list at every occurrence of the separator
character. -/
def splitOnSep (c : Char) : List Char → List (List Char)
  | [] => [[]]
  | x :: xs =>
    if x = c then [] :: splitOnSep c xs else consHead x (splitOnSep c xs)

/-- A cell value in the fragment of CSV we model: it contains neither the
field separator nor the record separator, so it needs no quoting and is
written verbatim.  The round-trip claim excludes formatting-only
differences, and quoting is exactly such a formatting concern. -/
def plainCell (s : String) : Prop := ',' ∉ s.data ∧ '\n' ∉ s.data

instance (s : String) : Decidable (plainCell s) := by
  unfold plainCell; infer_instance

/-- One serialized CSV record: the row's cells joined by commas. -/
def toCSVLine (row : List String) : List Char :=
  joinWith ',' (row.map String.data)

/-- Modelled from the spec: the body of `convert_df_to_csv`
(src/tokenaddress.py lines 14-17) delegates to pandas
`df.to_csv(index=False)`, whose code is not in this repository.  Per the
spec, the table is serialized as a header record followed by one record
per row, with no index column; cells of the modelled plain fragment are
written verbatim, records separated by newlines. -/
def convert_df_to_csv (header : List String) (rows : List (List String)) :
    String :=
  ⟨joinWith '\n' ((header :: rows).map toCSVLine)⟩

/-- Modelled from the spec: re-parsing the produced CSV (the spec's
round-trip property); no CSV reader exists in this repository.  Records
are split at newlines, then each record is split at commas into cells. -/
def parseCSV (s : String) : List (List String) :=
  (splitOnSep '\n' s.data).map (fun line => (splitOnSep ',' line).map String.mk)

/-- The mock server of the spec's scenario: `{"address":"0xabc"}` for
`BTC`, HTTP 404 for `ZZZUNKNOWN`. -/
def mockServer (base_url : String) : String → FetchOutcome := fun url =>
  if url = base_url ++ "/BTC" then .ok [("address", "0xabc")]
  else if url = base_url ++ "/ZZZUNKNOWN" then .httpError 404
  else .netError

/-! ### Helper lemmas about the CSV fragment -/

theorem mk_data (s : String) : String.mk s.data = s := rfl

theorem splitOnSep_of_not_mem (c : Char) (l : List Char) (h : c ∉ l) :
    splitOnSep c l = [l] := by
  induction l with
  | nil => rfl
  | cons x xs ih =>
    simp only [List.mem_cons, not_or] at h
    rw [splitOnSep, if_neg (fun hx => h.1 hx.symm), ih h.2, consHead]

theorem splitOnSep_append (c : Char) (l t : List Char) (h : c ∉ l) :
    splitOnSep c (l ++ c :: t) = l :: splitOnSep c t := by
  induction l with
  | nil => simp [splitOnSep]
  | cons x xs ih =>
    simp only [List.mem_cons, not_or] at h
    rw [List.cons_append, splitOnSep, if_neg (fun hx => h.1 hx.symm),
      ih h.2, consHead]

theorem splitOnSep_joinWith (c : Char) (ls : List (List Char)) (hne : ls ≠ [])
    (h : ∀ l ∈ ls, c ∉ l) : splitOnSep c (joinWith c ls) = ls := by
  induction ls with
  | nil => exact absurd rfl hne
  | cons l ls ih =>
    cases ls with
    | nil => simpa [joinWith] using splitOnSep_of_not_mem c l (h l (by simp))
    | cons l' ls' =>
      rw [joinWith, splitOnSep_append c l _ (h l (by simp)),
        ih (by simp) (fun m hm => h m (List.mem_cons_of_mem l hm))]

theorem mem_joinWith {c x : Char} {ls : List (List Char)}
    (hx : x ∈ joinWith c ls) : x = c ∨ ∃ l ∈ ls, x ∈ l := by
  induction ls with
  | nil => simp [joinWith] at hx
  | cons l ls ih =>
    cases ls with
    | nil => exact Or.inr ⟨l, by simp, by simpa [joinWith] using hx⟩
    | cons l' ls' =>
      rw [joinWith] at hx
      rcases List.mem_append.1 hx with h1 | h2
      · exact Or.inr ⟨l, by simp, h1⟩
      · rcases List.mem_cons.1 h2 with h3 | h4
        · exact Or.inl h3
        · rcases ih h4 with h5 | ⟨m, hm, hxm⟩
          · exact Or.inl h5
          · exact Or.inr ⟨m, List.mem_cons_of_mem l hm, hxm⟩

theorem toCSVLine_no_newline (row : List String)
    (h : ∀ s ∈ row, plainCell s) : '\n' ∉ toCSVLine row := by
  intro hx
  rcases mem_joinWith hx with h1 | ⟨l, hl, hxl⟩
  · exact absurd h1 (by decide)
  · rcases List.mem_map.1 hl with ⟨s, hs, rfl⟩
    exact (h s hs).2 hxl

theorem parseLine_toCSVLine (row : List String) (hne : row ≠ [])
    (h : ∀ s ∈ row, plainCell s) :
    (splitOnSep ',' (toCSVLine row)).map String.mk = row := by
  unfold toCSVLine
  rw [splitOnSep_joinWith ',' _ (by simpa using hne) ?cells]
  case cells =>
    intro l hl
    rcases List.mem_map.1 hl with ⟨s, hs, rfl⟩
    exact (h s hs).1
  rw [List.map_map]
  exact List.map_id'' (fun s => rfl) row

theorem parseCSV_convert (header : List String) (rows : List (List String))
    (hh : header ≠ []) (hr : ∀ r ∈ rows, r ≠ [])
    (hc : ∀ r ∈ header :: rows, ∀ s ∈ r, plainCell s) :
    parseCSV (convert_df_to_csv header rows) = header :: rows := by
  unfold parseCSV convert_df_to_csv
  rw [show (String.mk (joinWith '\n' ((header :: rows).map toCSVLine))).data
      = joinWith '\n' ((header :: rows).map toCSVLine) from rfl]
  rw [splitOnSep_joinWith '\n' _ (by simp) ?nolines]
  case nolines =>
    intro l hl
    rcases List.mem_map.1 hl with ⟨r, hrr, rfl⟩
    exact toCSVLine_no_newline r (hc r hrr)
  rw [List.map_map]
  have step : ∀ r ∈ header :: rows,
      ((splitOnSep ',' (toCSVLine r)).map String.mk) = r := by
    intro r hrr
    have hrne : r ≠ [] := by
      rcases List.mem_cons.1 hrr with rfl | h2
      · exact hh
      · exact hr r h2
    exact parseLine_toCSVLine r hrne (hc r hrr)
  calc (header :: rows).map
        ((fun line => (splitOnSep ',' line).map String.mk) ∘ toCSVLine)
      = (header :: rows).map id := List.map_congr_left step
    _ = header :: rows := List.map_id _

theorem mem_appendAddressColumn {rows : List (List String)}
    {addrs : List String} {row : List String}
    (h : row ∈ appendAddressColumn rows addrs) :
    ∃ r ∈ rows, ∃ a ∈ addrs, row = r ++ [a] := by
  induction rows generalizing addrs with
  | nil => simp [appendAddressColumn] at h
  | cons r rs ih =>
    cases addrs with
    | nil => simp [appendAddressColumn] at h
    | cons a as =>
      rcases List.mem_cons.1 (by simpa [appendAddressColumn] using h) with
        h1 | h2
      · exact ⟨r, by simp, a, by simp, h1⟩
      · rcases ih (by simpa [appendAddressColumn] using h2) with
          ⟨r', hr', a', ha', rfl⟩
        exact ⟨r', List.mem_cons_of_mem r hr', a',
          List.mem_cons_of_mem a ha', rfl⟩

/-! ### Claim theorems -/

/-- C1: for every input sequence of ticker values, the produced sequence
of address results has the same length as the input, and the result at
each position is `get_address` of the ticker at the same position; no
row is dropped or reordered regardless of per-row failures. -/
theorem resolve_preserves_rows (server : String → FetchOutcome)
    (base_url : String) (tickers : List TickerValue) :
    (resolveAll server base_url tickers).length = tickers.length ∧
    ∀ i : Nat, (resolveAll server base_url tickers)[i]?
      = (tickers[i]?).map (fun t => (get_address server base_url t).address) := by
  constructor
  · simp [resolveAll]
  · intro i
    simp [resolveAll]

/-- C2 (code behavior at the failing input): a NaN ticker is coerced to
the string `"nan"` before the `pd.isna` test, so `get_address` does NOT
short-circuit to `Invalid Ticker`: it issues one GET request, to
`{base_url}/nan`, for every server and base URL.  The `pd.isna`
disjunct of line 26 is unreachable as written, contradicting the
evident intent of lines 22-27. -/
theorem nan_ticker_issues_request (server : String → FetchOutcome)
    (base_url : String) :
    (get_address server base_url TickerValue.nanV).requests
      = [base_url ++ "/" ++ "nan"] := by
  have h : normalizeTicker TickerValue.nanV = "nan" := by decide
  simp only [get_address, h, pd_isna]
  rw [if_neg (by simp)]

/-- C3: for every ticker that does not short-circuit, an HTTP error
status (4xx/5xx) outcome yields the `Not Found` sentinel, and a
transport-level failure (connection refused, timeout, DNS failure)
yields the `API Error` sentinel. -/
theorem errors_classified (server : String → FetchOutcome)
    (base_url : String) (t : TickerValue)
    (hvalid : normalizeTicker t ≠ "") :
    (∀ code, server (base_url ++ "/" ++ normalizeTicker t)
        = FetchOutcome.httpError code →
      (get_address server base_url t).address = "Not Found") ∧
    (server (base_url ++ "/" ++ normalizeTicker t) = FetchOutcome.netError →
      (get_address server base_url t).address = "API Error") := by
  constructor
  · intro code hs
    simp [get_address, pd_isna, hvalid, hs]
  · intro hs
    simp [get_address, pd_isna, hvalid, hs]

/-- Witness for C3 at concrete inputs: a 404 response maps to
`Not Found` and a network failure maps to `API Error`. -/
theorem errors_classified_witness :
    (get_address (fun _ => FetchOutcome.httpError 404) "http://m"
        (.strV "BTC")).address = "Not Found" ∧
    (get_address (fun _ => FetchOutcome.netError) "http://m"
        (.strV "BTC")).address = "API Error" :=
  ⟨(errors_classified (fun _ => FetchOutcome.httpError 404) "http://m"
      (.strV "BTC") (by decide)).1 404 rfl,
   (errors_classified (fun _ => FetchOutcome.netError) "http://m"
      (.strV "BTC") (by decide)).2 rfl⟩

/-- C4 counterexample: when the 2xx JSON body has no `address` field,
`get_address` returns `"Address key not found"`, not the
`"Address not found"` string the claim names. -/
theorem default_sentinel_counterexample :
    (get_address (fun _ => FetchOutcome.ok []) "http://m"
        (.strV "BTC")).address = "Address key not found" ∧
    ¬ (get_address (fun _ => FetchOutcome.ok []) "http://m"
        (.strV "BTC")).address = "Address not found" := by
  decide

/-- C4 (amended): for every ticker that does not short-circuit, a 2xx
outcome with parseable JSON body returns the body's `address` field,
defaulting to the string `"Address key not found"` when the field is
absent, rather than raising an exception. -/
theorem success_returns_address_field (server : String → FetchOutcome)
    (base_url : String) (t : TickerValue) (body : List (String × String))
    (hvalid : normalizeTicker t ≠ "")
    (hok : server (base_url ++ "/" ++ normalizeTicker t)
      = FetchOutcome.ok body) :
    (get_address server base_url t).address
      = ((body.lookup "address").getD "Address key not found") := by
  simp [get_address, pd_isna, hvalid, hok]

/-- Witness for C4 (amended) at concrete inputs: a body with an
`address` field returns its value; a body without one returns the
default string. -/
theorem success_returns_address_field_witness :
    (get_address (fun _ => FetchOutcome.ok [("address", "0xabc")])
        "http://m" (.strV "BTC")).address = "0xabc" ∧
    (get_address (fun _ => FetchOutcome.ok [("chain", "eth")])
        "http://m" (.strV "BTC")).address = "Address key not found" :=
  ⟨success_returns_address_field
      (fun _ => FetchOutcome.ok [("address", "0xabc")]) "http://m"
      (.strV "BTC") [("address", "0xabc")] (by decide) rfl,
   success_returns_address_field
      (fun _ => FetchOutcome.ok [("chain", "eth")]) "http://m"
      (.strV "BTC") [("chain", "eth")] (by decide) rfl⟩

/-- C5: for every ticker that does not short-circuit, a response that
succeeds at the HTTP level but whose body is not parseable JSON (or any
other unexpected per-row failure reaching the final `except Exception`
handler) yields the `Processing Error` sentinel. -/
theorem bad_json_processing_error (server : String → FetchOutcome)
    (base_url : String) (t : TickerValue)
    (hvalid : normalizeTicker t ≠ "")
    (hbad : server (base_url ++ "/" ++ normalizeTicker t)
      = FetchOutcome.badJSON) :
    (get_address server base_url t).address = "Processing Error" := by
  simp [get_address, pd_isna, hvalid, hbad]

/-- Witness for C5 at concrete inputs. -/
theorem bad_json_processing_error_witness :
    (get_address (fun _ => FetchOutcome.badJSON) "http://m"
        (.strV "BTC")).address = "Processing Error" :=
  bad_json_processing_error (fun _ => FetchOutcome.badJSON) "http://m"
    (.strV "BTC") (by decide) rfl

/-- C6: a failure on one row never aborts the rest — the rows before and
after any row are resolved exactly as they would be in isolation — and
every row triggers at most one request attempt (no retries). -/
theorem row_isolation (server : String → FetchOutcome) (base_url : String)
    (xs ys : List TickerValue) (t : TickerValue) :
    resolveAll server base_url (xs ++ t :: ys)
      = resolveAll server base_url xs
        ++ (get_address server base_url t).address
          :: resolveAll server base_url ys ∧
    ∀ u : TickerValue, (get_address server base_url u).requests.length ≤ 1 := by
  constructor
  · simp [resolveAll]
  · intro u
    simp only [get_address]
    split <;> simp

/-- C7: on the input tickers `["BTC", "", "ZZZUNKNOWN"]`, with a server
answering `{"address": "0xabc"}` for `BTC` and HTTP 404 for
`ZZZUNKNOWN`, the resolver produces exactly
`["0xabc", "Invalid Ticker", "Not Found"]` in that order. -/
theorem scenario_btc_empty_unknown :
    resolveAll (mockServer "http://m") "http://m"
      [.strV "BTC", .strV "", .strV "ZZZUNKNOWN"]
      = ["0xabc", "Invalid Ticker", "Not Found"] := by
  decide

/-- C9: `get_address` is total at its interface: for every server
behavior, base URL and ticker value it returns a string, which is
either one of the four sentinels or the `address` field extracted (with
its absent-key default) from a 2xx JSON body; no failure escapes as an
exception. -/
theorem get_address_total (server : String → FetchOutcome)
    (base_url : String) (t : TickerValue) :
    (get_address server base_url t).address = "Invalid Ticker" ∨
    (get_address server base_url t).address = "Not Found" ∨
    (get_address server base_url t).address = "API Error" ∨
    (get_address server base_url t).address = "Processing Error" ∨
    ∃ body, server (base_url ++ "/" ++ normalizeTicker t)
        = FetchOutcome.ok body ∧
      (get_address server base_url t).address
        = ((body.lookup "address").getD "Address key not found") := by
  by_cases h : normalizeTicker t = ""
  · exact Or.inl (by simp [get_address, h])
  · cases hs : server (base_url ++ "/" ++ normalizeTicker t) with
    | ok body =>
      exact Or.inr (Or.inr (Or.inr (Or.inr
        ⟨body, rfl, by simp [get_address, pd_isna, h, hs]⟩)))
    | httpError code =>
      exact Or.inr (Or.inl (by simp [get_address, pd_isna, h, hs]))
    | netError =>
      exact Or.inr (Or.inr (Or.inl (by simp [get_address, pd_isna, h, hs])))
    | badJSON =>
      exact Or.inr (Or.inr (Or.inr (Or.inl
        (by simp [get_address, pd_isna, h, hs]))))

/-- C10: a ticker that is already a string is neither trimmed nor
coerced; any non-empty string — including a whitespace-only one — is
embedded verbatim into the request URL `{base_url}/{ticker}` and causes
exactly one network call. -/
theorem string_ticker_not_trimmed (server : String → FetchOutcome)
    (base_url : String) (s : String) (h : s ≠ "") :
    normalizeTicker (.strV s) = s ∧
    (get_address server base_url (.strV s)).requests
      = [base_url ++ "/" ++ s] := by
  refine ⟨rfl, ?_⟩
  simp [get_address, pd_isna, normalizeTicker, h]

/-- Witness for C10 at the whitespace-only ticker `" "`: it is treated
as non-empty and requested verbatim. -/
theorem string_ticker_not_trimmed_witness :
    (" " : String) ≠ "" ∧
    (get_address (fun _ => FetchOutcome.netError) "http://m"
        (.strV " ")).requests = ["http://m/ "] :=
  ⟨by decide,
   (string_ticker_not_trimmed (fun _ => FetchOutcome.netError) "http://m"
      " " (by decide)).2⟩

/-- C8: resolving a table, appending the `token address` column,
serializing to CSV and re-parsing reproduces the original rows plus the
appended column with identical cell values, for every table whose cells
need no quoting (formatting-only differences excluded). -/
theorem resolved_table_roundtrip (server : String → FetchOutcome)
    (base_url : String) (header : List String) (rows : List (List String))
    (tickers : List TickerValue)
    (hh : header ≠ []) (hhc : ∀ s ∈ header, plainCell s)
    (hrc : ∀ r ∈ rows, ∀ s ∈ r, plainCell s)
    (hac : ∀ a ∈ resolveAll server base_url tickers, plainCell a) :
    parseCSV (convert_df_to_csv header
        (appendAddressColumn rows (resolveAll server base_url tickers)))
      = header
        :: appendAddressColumn rows (resolveAll server base_url tickers) := by
  apply parseCSV_convert _ _ hh
  · intro r hrr
    rcases mem_appendAddressColumn hrr with ⟨r', _, a, _, rfl⟩
    simp
  · intro r hrr s hs
    rcases List.mem_cons.1 hrr with rfl | hr2
    · exact hhc s hs
    · rcases mem_appendAddressColumn hr2 with ⟨r', hr', a, ha, rfl⟩
      rcases List.mem_append.1 hs with h1 | h2
      · exact hrc r' hr' s h1
      · rw [List.mem_singleton.1 h2]
        exact hac a ha

/-- Witness for C8 at a concrete resolved table. -/
theorem resolved_table_roundtrip_witness :
    parseCSV (convert_df_to_csv ["Column A", "token address"]
        (appendAddressColumn [["BTC"], [""]]
          (resolveAll (mockServer "http://m") "http://m"
            [.strV "BTC", .strV ""])))
      = ["Column A", "token address"]
        :: appendAddressColumn [["BTC"], [""]]
          (resolveAll (mockServer "http://m") "http://m"
            [.strV "BTC", .strV ""]) :=
  resolved_table_roundtrip (mockServer "http://m") "http://m"
    ["Column A", "token address"] [["BTC"], [""]]
    [.strV "BTC", .strV ""]
    (by decide) (by decide) (by decide) (by decide)

end TokenAddress
